import Mathlib

/-!
Verification of the Notion-To-Google-Slides repository.

The definitions below are a shallow embedding of the repository's
TypeScript sources:
  * `src/mcpClient/index.ts` : the MCP client (`connectToServer`), the
    shared `types.ts`, and the embedded server copy holding
    `parseNotionPage`;
  * `src/GoogleSlidesMCP/src/createPresentation.ts` : the slide-assembly
    functions (`createPresentation`, `addNewBulletSlide`,
    `addNewParagraphSlide`, `initiateSlides`, `addCustomSlide`);
  * `src/GoogleSlidesMCP/src/index.ts` : the MCP tool handlers
    (`fetch-Notion-data`, `extract-company-data`, `create-presentation`,
    `add-custom-slide`).

JavaScript values flowing through `parseNotionPage` are modelled by a
`Json` inductive; a JS `undefined` produced by optional chaining or a
failed property access is modelled by `Option.none`.  The Google Slides
API is modelled by an environment (`SlidesEnv`) supplying the data the
API invents (fresh identifiers, layout page elements, the current date)
and by an explicit presentation state; every API request a function
issues is recorded in a trace (`List Request`).  Thrown JS exceptions
are modelled by `Except.error` carrying the message.
-/

namespace NotionSlides

/-! ## JSON values (for `parseNotionPage`, src/mcpClient/index.ts) -/

/-- A JavaScript JSON value.  `none : Option Json` stands for `undefined`. -/
inductive Json where
  | null : Json
  | bool (b : Bool) : Json
  | num (n : Int) : Json
  | str (s : String) : Json
  | arr (elems : List Json) : Json
  | obj (fields : List (String × Json)) : Json

/-- Property access `v[k]`: on an object, the first binding of `k`
(JS object keys are unique); on any other value it yields `undefined`
(`none`), as JS property access on primitives does. -/
def Json.get? : Json → String → Option Json
  | .obj fields, k => fields.lookup k
  | _, _ => none

/-- Index access `v[i]`: on an array, the `i`-th element; `undefined`
otherwise. -/
def Json.idx? : Json → Nat → Option Json
  | .arr elems, i => elems[i]?
  | _, _ => none

/-- JS truthiness test used by `if (!results)`:
`null`, `false`, `0`, and `""` are falsy. -/
def Json.falsy : Json → Bool
  | .null => true
  | .bool b => !b
  | .num n => n == 0
  | .str s => s.isEmpty
  | _ => false

/-- `JSON.stringify` (string escaping is not modelled; the repository
never serializes strings containing quotes or backslashes). -/
def Json.stringify : Json → String
  | .null => "null"
  | .bool b => if b then "true" else "false"
  | .num n => toString n
  | .str s => "\"" ++ s ++ "\""
  | .arr elems => "[" ++ String.intercalate ","
      (elems.attach.map fun e => Json.stringify e.1) ++ "]"
  | .obj fields => "\x7b" ++ String.intercalate ","
      (fields.attach.map fun kv => "\"" ++ kv.1.1 ++ "\":" ++ Json.stringify kv.1.2) ++ "\x7d"
decreasing_by
  · have h1 := List.sizeOf_lt_of_mem e.2
    have h2 : sizeOf (Json.arr elems) = 1 + sizeOf elems := by simp
    omega
  · obtain ⟨⟨a, b⟩, hm⟩ := kv
    have h1 := List.sizeOf_lt_of_mem hm
    have h2 : sizeOf (Json.obj fields) = 1 + sizeOf fields := by simp
    have h3 : sizeOf ((a, b) : String × Json) = 1 + sizeOf a + sizeOf b := by simp
    simp only at h1 ⊢
    omega

/-- `field?.rich_text?.[0]?.plain_text ?? ""` from `parseNotionPage`. -/
def getRichText (field : Option Json) : Json :=
  match field.bind (Json.get? · "rich_text") |>.bind (Json.idx? · 0) |>.bind (Json.get? · "plain_text") with
  | none => .str ""
  | some .null => .str ""
  | some v => v

/-- `field?.title?.[0]?.plain_text ?? ""` from `parseNotionPage`. -/
def getTitle (field : Option Json) : Json :=
  match field.bind (Json.get? · "title") |>.bind (Json.idx? · 0) |>.bind (Json.get? · "plain_text") with
  | none => .str ""
  | some .null => .str ""
  | some v => v

/-- `field?.select?.name ?? ""` from `parseNotionPage`. -/
def getSelect (field : Option Json) : Json :=
  match field.bind (Json.get? · "select") |>.bind (Json.get? · "name") with
  | none => .str ""
  | some .null => .str ""
  | some v => v

/-- `typeof field?.number === "number" ? field.number : 0` from
`parseNotionPage`. -/
def getNumber (field : Option Json) : Json :=
  match field.bind (Json.get? · "number") with
  | some (.num n) => .num n
  | _ => .num 0

/-- `field?.date?.start ?? ""` from `parseNotionPage`. -/
def getDate (field : Option Json) : Json :=
  match field.bind (Json.get? · "date") |>.bind (Json.get? · "start") with
  | none => .str ""
  | some .null => .str ""
  | some v => v

/-- The record returned by `parseNotionPage`.  Fields keep the JS value
type (`Json`) because the function returns whatever the accessors
produce. -/
structure ParsedRecord where
  companyName : Json
  location : Json
  foundedYear : Json
  arr : Json
  industry : Json
  burnRate : Json
  exitStrategy : Json
  dealStatus : Json
  fundingStage : Json
  investmentAmount : Json
  investmentDate : Json
  keyMetrics : Json

/-- Whether a JSON value is the JS `null`. -/
def Json.isNull : Json → Bool
  | .null => true
  | _ => false

/-- `parseNotionPage` (src/mcpClient/index.ts).  Accessing
`props["Company Name"]` when `page.properties` is `undefined` or `null`
throws a `TypeError` in JS; those are the `Except.error` branches. -/
def parseNotionPage (page : Json) : Except String ParsedRecord :=
  match page.get? "properties" with
  | none => .error "TypeError: Cannot read properties of undefined"
  | some props =>
    if props.isNull then .error "TypeError: Cannot read properties of null"
    else .ok {
      companyName := getTitle (props.get? "Company Name")
      location := getRichText (props.get? "Location")
      foundedYear := getNumber (props.get? "Founded Year")
      arr := getNumber (props.get? "ARR")
      industry := getSelect (props.get? "Industry")
      burnRate := getNumber (props.get? "Burn Rate")
      exitStrategy := getSelect (props.get? "Exit Strategy")
      dealStatus := getSelect (props.get? "Deal Status")
      fundingStage := getSelect (props.get? "Funding Stage")
      investmentAmount := getNumber (props.get? "Investment Amount")
      investmentDate := getDate (props.get? "Investment Date")
      keyMetrics := getRichText (props.get? "Key Metrics") }

/-- The five Notion property types `parseNotionPage` reads. -/
inductive PropType where
  | title : PropType
  | richText : PropType
  | selectKind : PropType
  | numberKind : PropType
  | dateKind : PropType
deriving DecidableEq

/-- A well-formed Notion property value of the given type, carrying a
string payload (for text-like types) or an integer payload (for number
properties); mirrors the shapes the Notion API returns and
`parseNotionPage` consumes. -/
def mkProp : PropType → String → Int → Json
  | .title, s, _ => .obj [("title", .arr [.obj [("plain_text", .str s)]])]
  | .richText, s, _ => .obj [("rich_text", .arr [.obj [("plain_text", .str s)]])]
  | .selectKind, s, _ => .obj [("select", .obj [("name", .str s)])]
  | .numberKind, _, n => .obj [("number", .num n)]
  | .dateKind, s, _ => .obj [("date", .obj [("start", .str s)])]

/-! ## Company data and slide parameters (types.ts) -/

/-- `CompanyData` from types.ts (src/mcpClient, shared with the server).
JS numbers are modelled as integers; the repository only uses integral
values.  The optional `presentationId` is only ever written, never read,
by the functions modelled here, so it is omitted. -/
structure CompanyData where
  companyName : String
  location : String
  foundedYear : Int
  arr : Int
  industry : String
  burnRate : Int
  exitStrategy : String
  dealStatus : String
  fundingStage : String
  investmentAmount : Int
  investmentDate : String
  keyMetrics : String
deriving DecidableEq

/-- The `slideType` discriminated union from types.ts:
`GeneralSummarySlideParam | ParagraphSlideParam | InvestmentDetails`. -/
inductive SlideType where
  | generalSummary (foundedYear : Int) (arr : Int) (industry : String)
      (burnRate : Int) (exitStrategy : String) : SlideType
  | investmentDetails (dealStatus : String) (fundingStage : String)
      (investmentAmount : Int) (investmentDate : String) : SlideType
  | paragraph (body : String) : SlideType
deriving DecidableEq

/-- The `kind` discriminator string of a `slideType` value. -/
def SlideType.kind : SlideType → String
  | .generalSummary .. => "GeneralSummary"
  | .investmentDetails .. => "InvestmentDetails"
  | .paragraph _ => "Paragraph"

/-- The `body` field read by `addNewParagraphSlide`; only the
`Paragraph` variant has one (reading it on another variant would give
`undefined`, which the `kind` guard makes unreachable). -/
def SlideType.bodyText : SlideType → String
  | .paragraph b => b
  | _ => "undefined"

/-- `Object.entries(slideData.slideType)` minus the `kind` key, with
each value coerced to a string as JS template interpolation does.
Object literal key order in `initiateSlides` determines the order. -/
def SlideType.entries : SlideType → List (String × String)
  | .generalSummary fy a i br es =>
      [("foundedYear", toString fy), ("arr", toString a), ("industry", i),
       ("burnRate", toString br), ("exitStrategy", es)]
  | .investmentDetails ds fs ia idt =>
      [("dealStatus", ds), ("fundingStage", fs),
       ("investmentAmount", toString ia), ("investmentDate", idt)]
  | .paragraph b => [("body", b)]

/-- `AddSlideParam` from types.ts. -/
structure AddSlideParam where
  companyName : String
  slideType : SlideType
  presentationId : Option String
deriving DecidableEq

/-- `.replace(/([A-Z])/g, " $1")`: insert a space before every ASCII
capital letter. -/
def spaceCaps (s : String) : String :=
  String.mk (s.data.foldr (fun c acc => if c.isUpper then ' ' :: c :: acc else c :: acc) [])

/-- `.replace(/^./, (str) => str.toUpperCase())`: uppercase the first
character, if any. -/
def upperFirst (s : String) : String :=
  match s.data with
  | [] => ""
  | c :: rest => String.mk (c.toUpper :: rest)

/-- The key/title prettification used in `addNewBulletSlide`:
a space before each capital, then the first character uppercased. -/
def prettifyKey (s : String) : String :=
  upperFirst (spaceCaps s)

/-- The `summary` string built by the `for (const [key, value] of
Object.entries(slideData.slideType))` loop in `addNewBulletSlide`
(the `kind` entry is skipped by the `continue`). -/
def bulletSummary (st : SlideType) : String :=
  st.entries.foldl (fun acc kv => acc ++ prettifyKey kv.1 ++ ": " ++ kv.2 ++ "\n") ""

/-! ## Google Slides presentation state and request traces
(createPresentation.ts) -/

/-- A page element (shape) on a slide.  `objectId` can be absent in the
API response; `text`, `styled` and `bulleted` record the effect of
`insertText`, `updateTextStyle` and `createParagraphBullets` requests. -/
structure PageElement where
  objectId : Option String
  text : String := ""
  styled : Bool := false
  bulleted : Bool := false
deriving DecidableEq

/-- A slide of a presentation; `pageElements` can be absent in the API
response (`none`). -/
structure Slide where
  objectId : Option String
  pageElements : Option (List PageElement)
deriving DecidableEq

/-- A Google Slides presentation: the opaque identifier plus its
slides. -/
structure Presentation where
  presentationId : String
  slides : List Slide
deriving DecidableEq

/-- One API request issued by the repository's functions, as recorded in
a trace: `presentations.create`, `presentations.get`, and the four
`batchUpdate` request kinds used. -/
inductive Request where
  | createPresentationReq (title : String) : Request
  | getPresentation : Request
  | createSlide (objectId : String) : Request
  | insertText (objectId : String) (text : String) : Request
  | updateTextStyle (objectId : String) : Request
  | createParagraphBullets (objectId : String) : Request
deriving DecidableEq

/-- The data the Google Slides API invents during a run: the identifier
returned by `presentations.create` (possibly absent), the slides of the
freshly created presentation, the page elements the TITLE_AND_BODY
layout generates for each created slide (keyed by the slide objectId),
the `Date.now`/random unique id generated for paragraph slides and the
current date string. -/
structure SlidesEnv where
  createdId : Option String
  initialSlides : List Slide
  layoutElems : String → List PageElement
  paragraphId : String
  today : String

/-- JS falsiness of a possibly-absent string (`!x`): absent or empty. -/
def strFalsy : Option String → Bool
  | none => true
  | some s => s.isEmpty

/-- Effect of an `insertText` request on one page element
(`insertionIndex: 0` prepends). -/
def elemInsert (oid txt : String) (e : PageElement) : PageElement :=
  if e.objectId = some oid then { e with text := txt ++ e.text } else e

/-- Effect of an `updateTextStyle` request on one page element. -/
def elemStyle (oid : String) (e : PageElement) : PageElement :=
  if e.objectId = some oid then { e with styled := true } else e

/-- Effect of a `createParagraphBullets` request on one page element. -/
def elemBullets (oid : String) (e : PageElement) : PageElement :=
  if e.objectId = some oid then { e with bulleted := true } else e

/-- Map a page-element transformation over a slide. -/
def slideMapElems (f : PageElement → PageElement) (s : Slide) : Slide :=
  { s with pageElements := s.pageElements.map (List.map f) }

/-- Semantics of one request against the presentation state.
`createSlide` appends a slide whose page elements are supplied by the
layout (`TITLE_AND_BODY`); the text/style requests address elements by
objectId anywhere in the presentation, as the Slides API does. -/
def applyRequest (env : SlidesEnv) (p : Presentation) : Request → Presentation
  | .createPresentationReq _ => p
  | .getPresentation => p
  | .createSlide oid =>
      { p with slides := p.slides ++ [{ objectId := some oid, pageElements := some (env.layoutElems oid) }] }
  | .insertText oid txt => { p with slides := p.slides.map (slideMapElems (elemInsert oid txt)) }
  | .updateTextStyle oid => { p with slides := p.slides.map (slideMapElems (elemStyle oid)) }
  | .createParagraphBullets oid => { p with slides := p.slides.map (slideMapElems (elemBullets oid)) }

/-- Apply a batch of requests in order. -/
def applyRequests (env : SlidesEnv) (p : Presentation) (rs : List Request) : Presentation :=
  rs.foldl (applyRequest env) p

/-- The body of `createPresentation` (createPresentation.ts, lines
88-156) before its surrounding catch: create the presentation, fetch
it, take the first slide's first two page elements as the title and
subtitle placeholders, and insert the company name and
location/date.  The `[_] =>` arm is the JS `TypeError` thrown by
`firstSlide.pageElements[1].objectId` when only one element exists. -/
def createPresentationInner (cd : CompanyData) (env : SlidesEnv) :
    Except String (String × Presentation) × List Request :=
  let tr0 : List Request := [.createPresentationReq (cd.companyName ++ " Slide Deck")]
  if strFalsy env.createdId then
    (.error "presentationId is null or undefined", tr0)
  else
    let pid := env.createdId.getD ""
    let p0 : Presentation := { presentationId := pid, slides := env.initialSlides }
    let tr1 := tr0 ++ [.getPresentation]
    match p0.slides[0]? with
    | none => (.error "No slides found", tr1)
    | some firstSlide =>
      match firstSlide.pageElements with
      | none => (.error "No elements found on First Slide", tr1)
      | some elems =>
        match elems with
        | [] => (.error "No elements found on First Slide", tr1)
        | [_] => (.error "TypeError: Cannot read properties of undefined", tr1)
        | e0 :: e1 :: _ =>
          if strFalsy e1.objectId || strFalsy e0.objectId then
            (.error "titleID or subtitleId not set", tr1)
          else
            let titleId := e0.objectId.getD ""
            let subtitleId := e1.objectId.getD ""
            let reqs : List Request :=
              [.insertText titleId cd.companyName,
               .insertText subtitleId (cd.location ++ "\nCreated: " ++ env.today)]
            (.ok (pid, applyRequests env p0 reqs), tr1 ++ reqs)

/-- `createPresentation` with its catch: any failure is rethrown as the
fixed message. -/
def createPresentation (cd : CompanyData) (env : SlidesEnv) :
    Except String (String × Presentation) × List Request :=
  match createPresentationInner cd env with
  | (.ok r, tr) => (.ok r, tr)
  | (.error _, tr) => (.error "Failed to create presentation in createPresentation()", tr)

/-- `addNewBulletSlide` (createPresentation.ts, lines 164-290): guard on
the presentationId, create a slide whose objectId is the `kind` string,
re-fetch the presentation, find that slide, take its first two page
elements as title and body placeholders, then insert the title and the
bulleted summary.  The `[_] =>` arm is the JS `TypeError` from
`currentSlide.pageElements[1].objectId` with a single element. -/
def addNewBulletSlide (sd : AddSlideParam) (env : SlidesEnv) (p : Presentation) :
    Except String Presentation × List Request :=
  if strFalsy sd.presentationId then
    (.error "Could not get presentationID in addGeneralSummary(). Check your parameter in function call.", [])
  else
    let st := sd.slideType.kind
    let summary := bulletSummary sd.slideType
    let p1 := applyRequest env p (.createSlide st)
    let tr1 : List Request := [.createSlide st, .getPresentation]
    match p1.slides.find? (fun s => s.objectId == some st) with
    | none => (.error "\x27General Summary\x27 slide not found.", tr1)
    | some currentSlide =>
      match currentSlide.pageElements with
      | none => (.error "\x27General Summary\x27 slide not found.", tr1)
      | some elems =>
        match elems with
        | [] => (.error "\x27General Summary\x27 slide not found.", tr1)
        | [_] => (.error "TypeError: Cannot read properties of undefined", tr1)
        | e0 :: e1 :: _ =>
          if strFalsy e1.objectId || strFalsy e0.objectId then
            (.error "titleID or subtitleId not set", tr1)
          else
            let titleId := e0.objectId.getD ""
            let bodyId := e1.objectId.getD ""
            let reqs : List Request :=
              [.insertText titleId (prettifyKey st),
               .updateTextStyle titleId,
               .insertText bodyId summary,
               .createParagraphBullets bodyId]
            (.ok (applyRequests env p1 reqs), tr1 ++ reqs)

/-- `addNewParagraphSlide` (createPresentation.ts, lines 298-404): guard
on the presentationId, require `kind === "Paragraph"`, create a slide
under the generated unique id, re-fetch, take the LAST slide, resolve
its first two page elements positionally, and insert the fixed title
"Paragraph" and the body text (no bullets). -/
def addNewParagraphSlide (sd : AddSlideParam) (env : SlidesEnv) (p : Presentation) :
    Except String Presentation × List Request :=
  if strFalsy sd.presentationId then
    (.error "Could not get presentationID in addNewParagraphSlide(). Check the parameter in your function call.", [])
  else
    let st := sd.slideType.kind
    if st ≠ "Paragraph" then
      (.error "addNewParagraph() requires an \x27AddSlideParam\x27 of \x27kind: \x27paragraph\x27", [])
    else
      let summary := sd.slideType.bodyText
      let p1 := applyRequest env p (.createSlide env.paragraphId)
      let tr1 : List Request := [.createSlide env.paragraphId, .getPresentation]
      match p1.slides.getLast? with
      | none => (.error "Latest slide not found or has no elements", tr1)
      | some currentSlide =>
        match currentSlide.pageElements with
        | none => (.error "Latest slide not found or has no elements", tr1)
        | some elems =>
          match elems with
          | [] => (.error "Latest slide not found or has no elements", tr1)
          | [_] => (.error "TypeError: Cannot read properties of undefined", tr1)
          | e0 :: e1 :: _ =>
            if strFalsy e1.objectId || strFalsy e0.objectId then
              (.error "titleID or subtitleId not set", tr1)
            else
              let titleId := e0.objectId.getD ""
              let bodyId := e1.objectId.getD ""
              let reqs : List Request :=
                [.insertText titleId st,
                 .updateTextStyle titleId,
                 .insertText bodyId summary]
              (.ok (applyRequests env p1 reqs), tr1 ++ reqs)

/-- The body of `initiateSlides` (createPresentation.ts, lines 411-469)
before its surrounding catch: create the presentation, then append the
GeneralSummary bullet slide, the InvestmentDetails bullet slide, and the
keyMetrics paragraph slide, threading the captured presentationId. -/
def initiateSlidesInner (cd : CompanyData) (env : SlidesEnv) :
    Except String (String × Presentation) × List Request :=
  match createPresentation cd env with
  | (.error e, tr) => (.error e, tr)
  | (.ok (pid, p1), tr) =>
    if pid.isEmpty then
      (.error "Failed to create presentation in initiateSlides()", tr)
    else
      let gshape : AddSlideParam :=
        { companyName := cd.companyName,
          slideType := .generalSummary cd.foundedYear cd.arr cd.industry cd.burnRate cd.exitStrategy,
          presentationId := some pid }
      match addNewBulletSlide gshape env p1 with
      | (.error e, tr2) => (.error e, tr ++ tr2)
      | (.ok p2, tr2) =>
        let ishape : AddSlideParam :=
          { companyName := cd.companyName,
            slideType := .investmentDetails cd.dealStatus cd.fundingStage cd.investmentAmount cd.investmentDate,
            presentationId := some pid }
        match addNewBulletSlide ishape env p2 with
        | (.error e, tr3) => (.error e, tr ++ tr2 ++ tr3)
        | (.ok p3, tr3) =>
          let pshape : AddSlideParam :=
            { companyName := cd.companyName,
              slideType := .paragraph cd.keyMetrics,
              presentationId := some pid }
          match addNewParagraphSlide pshape env p3 with
          | (.error e, tr4) => (.error e, tr ++ tr2 ++ tr3 ++ tr4)
          | (.ok p4, tr4) => (.ok (pid, p4), tr ++ tr2 ++ tr3 ++ tr4)

/-- `initiateSlides` with its catch: any failure is rethrown wrapped in
the fixed prefix (JS `${error}` renders "Error: " before the message). -/
def initiateSlides (cd : CompanyData) (env : SlidesEnv) :
    Except String (String × Presentation) × List Request :=
  match initiateSlidesInner cd env with
  | (.ok r, tr) => (.ok r, tr)
  | (.error e, tr) =>
      (.error ("There was an error in initiateSlides(): \nError: " ++ e), tr)

/-- `addCustomSlide` (createPresentation.ts, lines 479-502): wrap the
inputs into a Paragraph `AddSlideParam` and delegate to
`addNewParagraphSlide`; any failure is rethrown wrapped. -/
def addCustomSlide (title content presentationId : String) (env : SlidesEnv)
    (p : Presentation) : Except String Presentation × List Request :=
  let shape : AddSlideParam :=
    { companyName := title, slideType := .paragraph content,
      presentationId := some presentationId }
  match addNewParagraphSlide shape env p with
  | (.ok p1, tr) => (.ok p1, tr)
  | (.error e, tr) =>
      (.error ("There was an error in addCustomSlide(): \nError: " ++ e), tr)

/-! ## MCP tool handlers (src/GoogleSlidesMCP/src/index.ts) -/

/-- The observable outcome of one MCP tool invocation: either a text
content result (the only content shape any handler builds), or an
exception that escapes the handler. -/
inductive ToolOutcome where
  | text (s : String) : ToolOutcome
  | thrown (msg : String) : ToolOutcome
deriving DecidableEq

/-- Whether the outcome is a text content result. -/
def ToolOutcome.isText : ToolOutcome → Bool
  | .text _ => true
  | .thrown _ => false

/-- One parsed CSV row as produced by `csv-parse` with
`columns: true, trim: true`: the column name/value pairs, in header
order, all values strings. -/
abbrev CsvRow := List (String × String)

/-- `row.companyName`: the value of the companyName column, or the
empty string when the column is absent (JS `undefined` and `""` are
both falsy, which is all the handler observes). -/
def CsvRow.companyName (r : CsvRow) : String :=
  (r.lookup "companyName").getD ""

/-- JS `String.prototype.trim()`: drop leading and trailing whitespace
(defined over the character list so that it evaluates by kernel
reduction). -/
def jsTrim (s : String) : String :=
  String.mk (((s.data.dropWhile Char.isWhitespace).reverse.dropWhile Char.isWhitespace).reverse)

/-- JS `String.prototype.toLowerCase()` on ASCII data (defined over the
character list so that it evaluates by kernel reduction). -/
def jsToLower (s : String) : String :=
  String.mk (s.data.map Char.toLower)

/-- The match test of the `extract-company-data` handler:
`row.companyName && row.companyName.trim().toLowerCase() ===
companyName.trim().toLowerCase()`. -/
def companyMatches (query : String) (r : CsvRow) : Bool :=
  !(CsvRow.companyName r).isEmpty &&
    (jsToLower (jsTrim (CsvRow.companyName r)) == jsToLower (jsTrim query))

/-- `JSON.stringify(company)` on a flat CSV row object (escaping not
modelled, as for `Json.stringify`). -/
def rowToText (r : CsvRow) : String :=
  "\x7b" ++ String.intercalate ","
    (r.map fun kv => "\"" ++ kv.1 ++ "\":\"" ++ kv.2 ++ "\"") ++ "\x7d"

/-- The `message` of the Node error thrown by reading an absent cache
file (`fs.createReadStream` on a missing notion-data.csv). -/
def enoentMessage : String :=
  "ENOENT: no such file or directory, open \x27notion-data.csv\x27"

/-- External operations the `extract-company-data` handler can perform,
for stating that it reads the cache and never fetches from Notion. -/
inductive Effect where
  | readCache : Effect
  | notionFetch : Effect
deriving DecidableEq

/-- The `extract-company-data` handler (src/GoogleSlidesMCP/src/index.ts,
lines 110-176).  The cache argument is the parsed CSV file, `none` when
the file is absent (the stream then errors and the catch reports the
error message as text).  On a present cache the stream resolves with the
first matching row (`stream.destroy()` on first match), or null at end
of stream. -/
def extractCompanyDataTool (cache : Option (List CsvRow)) (companyName : String) :
    ToolOutcome × List Effect :=
  match cache with
  | none =>
      (.text ("An error occurred while extracting company data:\n" ++ enoentMessage),
       [.readCache])
  | some rows =>
    match rows.find? (companyMatches companyName) with
    | none =>
        (.text ("No company found with the name \"" ++ companyName ++ "\""),
         [.readCache])
    | some row => (.text (rowToText row), [.readCache])

/-- Environment for the `fetch-Notion-data` handler: a possible failure
of the Notion query, and the JSON body served by the local staging
endpoint (or a fetch failure). -/
structure FetchEnv where
  notionErr : Option String
  backendRes : Except String Json

/-- The `fetch-Notion-data` handler (src/GoogleSlidesMCP/src/index.ts,
lines 50-84): query Notion, call the local endpoint, fail on a falsy
body, and return the stringified JSON; every failure is caught and
rendered as text. -/
def fetchNotionTool (env : FetchEnv) : ToolOutcome :=
  match env.notionErr with
  | some e => .text ("There was in error in fetch-Notion-data: \nError: " ++ e)
  | none =>
    match env.backendRes with
    | .error e => .text ("There was in error in fetch-Notion-data: \nError: " ++ e)
    | .ok body =>
      if body.falsy then
        .text ("There was in error in fetch-Notion-data: \nError: Could not fetch data from local backend.")
      else
        .text body.stringify

/-- The `create-presentation` handler (src/GoogleSlidesMCP/src/index.ts,
lines 207-273).  The `if (!data) throw` validation sits OUTSIDE the
try/catch, so a missing `data` argument escapes the handler as an
exception; everything inside the try is caught and rendered as text. -/
def createPresentationTool (data : Option CompanyData) (env : SlidesEnv) : ToolOutcome :=
  match data with
  | none => .thrown "Missing or invalid input data for create-presentation"
  | some cd =>
    match initiateSlides cd env with
    | (.ok (pid, _), _) => .text ("Presentation ID: " ++ pid)
    | (.error e, _) => .text ("Failed to parse Notion data\nError: " ++ e)

/-- The `add-custom-slide` handler (src/GoogleSlidesMCP/src/index.ts,
lines 285-322): delegate to `addCustomSlide`; every failure is caught
and rendered as text. -/
def addCustomSlideTool (slideTitle slideContent presentationId : String)
    (env : SlidesEnv) (p : Presentation) : ToolOutcome :=
  match addCustomSlide slideTitle slideContent presentationId env p with
  | (.ok _, _) => .text ("Succesfully created a new slide at: " ++ presentationId)
  | (.error e, _) => .text ("There was an error creating a custom slide:\nError: " ++ e)

/-! ## MCP client (src/mcpClient/index.ts) -/

/-- The externally visible steps of `MCPClient.connectToServer`:
constructing the SDK `Client`, constructing the stdio transport (which
launches the server process with the given command and script path), and
connecting. -/
inductive ConnectStep where
  | clientNew : ConnectStep
  | transportNew (command : String) (arg : String) : ConnectStep
  | clientConnect : ConnectStep
deriving DecidableEq

/-- JS `String.prototype.endsWith(pat)` (defined over the character
list so that it evaluates by kernel reduction). -/
def jsEndsWith (s pat : String) : Bool :=
  List.isPrefixOf pat.data.reverse s.data.reverse

/-- `MCPClient.connectToServer` (src/mcpClient/index.ts, lines 34-70):
build a `Client`, check the `.js`/`.py` suffix of the script path
(throwing before any transport is constructed when neither matches),
pick the interpreter command, construct the transport and connect.
The catch logs and rethrows, so the error still escapes. -/
def connectToServer (serverScriptPath platform execPath : String) :
    Except String Unit × List ConnectStep :=
  let steps0 : List ConnectStep := [.clientNew]
  let isJs := jsEndsWith serverScriptPath ".js"
  let isPy := jsEndsWith serverScriptPath ".py"
  if !isJs && !isPy then
    (.error "Server script must be a .js or .py file", steps0)
  else
    let command :=
      if isPy then (if platform == "win32" then "python" else "python3")
      else execPath
    (.ok (), steps0 ++ [.transportNew command serverScriptPath, .clientConnect])

/-! ## Helper lemmas -/

/-- The objectIds present on a slide. -/
def slideElementIds (s : Slide) : List String :=
  (s.pageElements.getD []).filterMap PageElement.objectId

theorem createPresentationInner_ok {cd : CompanyData} {env : SlidesEnv} {pid : String}
    {p1 : Presentation} {tr : List Request}
    (h : createPresentationInner cd env = (.ok (pid, p1), tr)) :
    env.createdId = some pid ∧ pid ≠ "" ∧
    ∃ a b, tr = [.createPresentationReq (cd.companyName ++ " Slide Deck"), .getPresentation,
                 .insertText a cd.companyName,
                 .insertText b (cd.location ++ "\nCreated: " ++ env.today)] := by
  unfold createPresentationInner at h
  simp only [] at h
  split at h
  · simp at h
  · rename_i hfals
    split at h
    · simp at h
    · rename_i fs hfs
      split at h
      · simp at h
      · rename_i elems helems
        split at h
        · simp at h
        · simp at h
        · rename_i e0 e1 rest
          split at h
          · simp at h
          · rename_i hids
            simp only [Prod.mk.injEq, Except.ok.injEq] at h
            obtain ⟨⟨hpid, hp1⟩, htr⟩ := h
            cases hcid : env.createdId with
            | none => simp [hcid, strFalsy] at hfals
            | some s =>
              have hgd : env.createdId.getD "" = s := by simp [hcid]
              rw [hgd] at hpid
              subst hpid
              have hne : s.isEmpty = false := by
                simpa [hcid, strFalsy] using hfals
              refine ⟨rfl, ?_, e0.objectId.getD "", e1.objectId.getD "", ?_⟩
              · intro hempty
                rw [hempty] at hne
                exact absurd hne (by decide)
              · rw [← htr]
                rfl

theorem createPresentation_ok {cd : CompanyData} {env : SlidesEnv} {pid : String}
    {p1 : Presentation} {tr : List Request}
    (h : createPresentation cd env = (.ok (pid, p1), tr)) :
    env.createdId = some pid ∧ pid ≠ "" ∧
    ∃ a b, tr = [.createPresentationReq (cd.companyName ++ " Slide Deck"), .getPresentation,
                 .insertText a cd.companyName,
                 .insertText b (cd.location ++ "\nCreated: " ++ env.today)] := by
  unfold createPresentation at h
  split at h
  · rename_i r tr' heq
    obtain ⟨h1, h2⟩ := Prod.mk.injEq .. ▸ h
    exact createPresentationInner_ok (h1 ▸ h2 ▸ heq)
  · simp at h

theorem addNewBulletSlide_ok {sd : AddSlideParam} {env : SlidesEnv} {p p' : Presentation}
    {tr : List Request}
    (h : addNewBulletSlide sd env p = (.ok p', tr)) :
    ∃ tId bId,
      tr = [.createSlide sd.slideType.kind, .getPresentation,
            .insertText tId (prettifyKey sd.slideType.kind), .updateTextStyle tId,
            .insertText bId (bulletSummary sd.slideType), .createParagraphBullets bId] := by
  unfold addNewBulletSlide at h
  split at h
  · simp at h
  · simp only [] at h
    split at h
    · simp at h
    · rename_i cs hfind
      split at h
      · simp at h
      · rename_i elems helems
        split at h
        · simp at h
        · simp at h
        · rename_i e0 e1 rest
          split at h
          · simp at h
          · simp only [Prod.mk.injEq, Except.ok.injEq] at h
            obtain ⟨-, htr⟩ := h
            refine ⟨e0.objectId.getD "", e1.objectId.getD "", ?_⟩
            rw [← htr]
            rfl

theorem addNewParagraphSlide_ok {sd : AddSlideParam} {env : SlidesEnv} {p p' : Presentation}
    {tr : List Request}
    (h : addNewParagraphSlide sd env p = (.ok p', tr)) :
    sd.slideType.kind = "Paragraph" ∧
    ∃ e0 e1 rest tId bId,
      env.layoutElems env.paragraphId = e0 :: e1 :: rest ∧
      e0.objectId = some tId ∧ e1.objectId = some bId ∧
      tr = [.createSlide env.paragraphId, .getPresentation,
            .insertText tId "Paragraph", .updateTextStyle tId,
            .insertText bId sd.slideType.bodyText] ∧
      p' = applyRequests env (applyRequest env p (.createSlide env.paragraphId))
            [.insertText tId "Paragraph", .updateTextStyle tId,
             .insertText bId sd.slideType.bodyText] := by
  unfold addNewParagraphSlide at h
  split at h
  · simp at h
  · rename_i hpresent
    simp only [] at h
    split at h
    · simp at h
    · rename_i hkind
      have hk : sd.slideType.kind = "Paragraph" := not_not.mp hkind
      refine ⟨hk, ?_⟩
      have hlast : ((applyRequest env p (.createSlide env.paragraphId)).slides).getLast?
          = some { objectId := some env.paragraphId,
                   pageElements := some (env.layoutElems env.paragraphId) } := by
        simp [applyRequest]
      split at h
      · rename_i hnone
        rw [hlast] at hnone
        cases hnone
      · rename_i cs hsome
        rw [hlast] at hsome
        have hcs := (Option.some.injEq .. ▸ hsome).symm
        subst hcs
        split at h
        · simp at h
        · rename_i elems helems
          have helems2 : env.layoutElems env.paragraphId = elems := by
            simpa using helems
          split at h
          · simp at h
          · simp at h
          · rename_i e0 e1 rest
            split at h
            · simp at h
            · rename_i hids
              simp only [Bool.or_eq_true, not_or] at hids
              obtain ⟨hid1, hid0⟩ := hids
              cases he0 : e0.objectId with
              | none => rw [he0] at hid0; simp [strFalsy] at hid0
              | some t =>
                cases he1 : e1.objectId with
                | none => rw [he1] at hid1; simp [strFalsy] at hid1
                | some b =>
                  simp only [Prod.mk.injEq, Except.ok.injEq] at h
                  obtain ⟨hp, htr⟩ := h
                  refine ⟨e0, e1, rest, t, b, by rw [helems2], he0, he1, ?_, ?_⟩
                  · rw [← htr, hk, he0, he1]
                    rfl
                  · rw [← hp, hk, he0, he1]
                    rfl

theorem initiateSlidesInner_ok {cd : CompanyData} {env : SlidesEnv} {pid : String}
    {p : Presentation} {tr : List Request}
    (h : initiateSlidesInner cd env = (.ok (pid, p), tr)) :
    ∃ t1 t2 t3 t4 p1 p2 p3,
      createPresentation cd env = (.ok (pid, p1), t1) ∧
      addNewBulletSlide
        { companyName := cd.companyName,
          slideType := .generalSummary cd.foundedYear cd.arr cd.industry cd.burnRate cd.exitStrategy,
          presentationId := some pid } env p1 = (.ok p2, t2) ∧
      addNewBulletSlide
        { companyName := cd.companyName,
          slideType := .investmentDetails cd.dealStatus cd.fundingStage cd.investmentAmount cd.investmentDate,
          presentationId := some pid } env p2 = (.ok p3, t3) ∧
      addNewParagraphSlide
        { companyName := cd.companyName,
          slideType := .paragraph cd.keyMetrics,
          presentationId := some pid } env p3 = (.ok p, t4) ∧
      tr = t1 ++ t2 ++ t3 ++ t4 := by
  unfold initiateSlidesInner at h
  split at h
  · simp at h
  · rename_i pid' p1 t1 hcp
    split at h
    · simp at h
    · simp only [] at h
      split at h
      · simp at h
      · rename_i p2 t2 hb1
        split at h
        · simp at h
        · rename_i p3 t3 hb2
          split at h
          · simp at h
          · rename_i p4 t4 hb3
            simp only [Prod.mk.injEq, Except.ok.injEq] at h
            obtain ⟨⟨hpid, hp⟩, htr⟩ := h
            subst hpid
            subst hp
            subst htr
            exact ⟨t1, t2, t3, t4, p1, p2, p3, hcp, hb1, hb2, hb3, rfl⟩

theorem initiateSlides_ok {cd : CompanyData} {env : SlidesEnv} {pid : String}
    {p : Presentation} {tr : List Request}
    (h : initiateSlides cd env = (.ok (pid, p), tr)) :
    initiateSlidesInner cd env = (.ok (pid, p), tr) := by
  unfold initiateSlides at h
  split at h
  · rename_i r tr' heq
    simp only [Prod.mk.injEq, Except.ok.injEq] at h
    obtain ⟨h1, h2⟩ := h
    rw [h1, h2] at heq
    exact heq
  · simp at h

theorem map_id_of_mem {α : Type} {f : α → α} {l : List α} (h : ∀ e ∈ l, f e = e) :
    l.map f = l := by
  induction l with
  | nil => rfl
  | cons a t ih =>
    simp only [List.map_cons]
    rw [h a (by simp), ih (fun e he => h e (by simp [he]))]

theorem slideMapElems_id {f : PageElement → PageElement} {oid : String}
    (hf : ∀ e : PageElement, e.objectId ≠ some oid → f e = e) {s : Slide}
    (h : oid ∉ slideElementIds s) : slideMapElems f s = s := by
  unfold slideMapElems
  cases hpe : s.pageElements with
  | none => cases s; simp_all
  | some l =>
    have hmap : l.map f = l := by
      refine map_id_of_mem fun e he => hf e ?_
      intro heq
      refine h ?_
      simp only [slideElementIds, hpe, Option.getD, List.mem_filterMap]
      exact ⟨e, he, heq⟩
    cases s
    simp_all

theorem applyRequests_para_frame (env : SlidesEnv) (p : Presentation)
    (oid tId bId txtT txtB : String)
    (hT : ∀ s ∈ p.slides, tId ∉ slideElementIds s)
    (hB : ∀ s ∈ p.slides, bId ∉ slideElementIds s) :
    ∃ s' : Slide,
      (applyRequests env (applyRequest env p (.createSlide oid))
        [.insertText tId txtT, .updateTextStyle tId, .insertText bId txtB]).slides
        = p.slides ++ [s'] ∧ s'.objectId = some oid := by
  have hins : ∀ txt, ∀ e : PageElement, e.objectId ≠ some tId → elemInsert tId txt e = e := by
    intro txt e he
    simp [elemInsert, he]
  have hsty : ∀ e : PageElement, e.objectId ≠ some tId → elemStyle tId e = e := by
    intro e he
    simp [elemStyle, he]
  have hinsB : ∀ txt, ∀ e : PageElement, e.objectId ≠ some bId → elemInsert bId txt e = e := by
    intro txt e he
    simp [elemInsert, he]
  simp only [applyRequests, List.foldl, applyRequest]
  simp only [List.map_append, List.map_cons, List.map_nil]
  rw [map_id_of_mem (fun s hs => slideMapElems_id (hins txtT) (hT s hs))]
  rw [map_id_of_mem (fun s hs => slideMapElems_id hsty (hT s hs))]
  rw [map_id_of_mem (fun s hs => slideMapElems_id (hinsB txtB) (hB s hs))]
  exact ⟨_, rfl, rfl⟩

/-- Request classifier: `presentations.create` calls. -/
def isCreatePresentationReq : Request → Bool
  | .createPresentationReq _ => true
  | _ => false

/-- Request classifier: `createSlide` batch requests. -/
def isCreateSlideReq : Request → Bool
  | .createSlide _ => true
  | _ => false

/-- Request classifier: `insertText` batch requests. -/
def isInsertTextReq : Request → Bool
  | .insertText .. => true
  | _ => false

/-- Request classifier: `createParagraphBullets` batch requests. -/
def isBulletsReq : Request → Bool
  | .createParagraphBullets _ => true
  | _ => false

deriving instance DecidableEq for Except

theorem strAppend_assoc (a b c : String) : a ++ b ++ c = a ++ (b ++ c) := by
  apply String.ext
  simp [String.data_append]

theorem bulletSummary_generalSummary (fy a : Int) (i : String) (br : Int) (es : String) :
    bulletSummary (.generalSummary fy a i br es) =
      "Founded Year: " ++ toString fy ++ "\nArr: " ++ toString a ++ "\nIndustry: " ++ i ++
      "\nBurn Rate: " ++ toString br ++ "\nExit Strategy: " ++ es ++ "\n" := by
  have h1 : ("Founded Year: " : String).data
      = ("Founded Year" : String).data ++ (": " : String).data := rfl
  have h2 : ("\nArr: " : String).data
      = ("\n" : String).data ++ ("Arr" : String).data ++ (": " : String).data := rfl
  have h3 : ("\nIndustry: " : String).data
      = ("\n" : String).data ++ ("Industry" : String).data ++ (": " : String).data := rfl
  have h4 : ("\nBurn Rate: " : String).data
      = ("\n" : String).data ++ ("Burn Rate" : String).data ++ (": " : String).data := rfl
  have h5 : ("\nExit Strategy: " : String).data
      = ("\n" : String).data ++ ("Exit Strategy" : String).data ++ (": " : String).data := rfl
  have hpk1 : prettifyKey "foundedYear" = "Founded Year" := rfl
  have hpk2 : prettifyKey "arr" = "Arr" := rfl
  have hpk3 : prettifyKey "industry" = "Industry" := rfl
  have hpk4 : prettifyKey "burnRate" = "Burn Rate" := rfl
  have hpk5 : prettifyKey "exitStrategy" = "Exit Strategy" := rfl
  unfold bulletSummary SlideType.entries
  simp only [List.foldl, hpk1, hpk2, hpk3, hpk4, hpk5]
  apply String.ext
  simp [String.data_append, h1, h2, h3, h4, h5]

theorem bulletSummary_investmentDetails (ds fs : String) (ia : Int) (idt : String) :
    bulletSummary (.investmentDetails ds fs ia idt) =
      "Deal Status: " ++ ds ++ "\nFunding Stage: " ++ fs ++
      "\nInvestment Amount: " ++ toString ia ++ "\nInvestment Date: " ++ idt ++ "\n" := by
  have h1 : ("Deal Status: " : String).data
      = ("Deal Status" : String).data ++ (": " : String).data := rfl
  have h2 : ("\nFunding Stage: " : String).data
      = ("\n" : String).data ++ ("Funding Stage" : String).data ++ (": " : String).data := rfl
  have h3 : ("\nInvestment Amount: " : String).data
      = ("\n" : String).data ++ ("Investment Amount" : String).data ++ (": " : String).data := rfl
  have h4 : ("\nInvestment Date: " : String).data
      = ("\n" : String).data ++ ("Investment Date" : String).data ++ (": " : String).data := rfl
  have hpk1 : prettifyKey "dealStatus" = "Deal Status" := rfl
  have hpk2 : prettifyKey "fundingStage" = "Funding Stage" := rfl
  have hpk3 : prettifyKey "investmentAmount" = "Investment Amount" := rfl
  have hpk4 : prettifyKey "investmentDate" = "Investment Date" := rfl
  unfold bulletSummary SlideType.entries
  simp only [List.foldl, hpk1, hpk2, hpk3, hpk4]
  apply String.ext
  simp [String.data_append, h1, h2, h3, h4]

/-- C1: for every normalized company record, `initiateSlides` produces
exactly one presentation identifier (returned to the caller, equal to
the identifier `presentations.create` produced), issues exactly one
presentation creation, and issues exactly three content-slide creations
beyond the auto-created title slide, in the fixed order GeneralSummary,
InvestmentDetails, Paragraph; the text inserted into those slides is the
bulleted general summary (founding year, revenue, industry, burn rate,
exit strategy), the bulleted investment details (deal status, funding
stage, investment amount and date), and the free-text notes
(`keyMetrics`) — with bullets created exactly on the two summary
bodies. -/
theorem initiateSlides_fixed_sequence (cd : CompanyData) (env : SlidesEnv)
    (pid : String) (p : Presentation) (tr : List Request)
    (h : initiateSlides cd env = (.ok (pid, p), tr)) :
    env.createdId = some pid ∧
    tr.filter isCreatePresentationReq
      = [.createPresentationReq (cd.companyName ++ " Slide Deck")] ∧
    tr.filter isCreateSlideReq
      = [.createSlide "GeneralSummary", .createSlide "InvestmentDetails",
         .createSlide env.paragraphId] ∧
    ∃ a b gT gB iT iB pT pB : String,
      tr.filter isInsertTextReq
        = [.insertText a cd.companyName,
           .insertText b (cd.location ++ "\nCreated: " ++ env.today),
           .insertText gT " General Summary",
           .insertText gB ("Founded Year: " ++ toString cd.foundedYear ++ "\nArr: "
              ++ toString cd.arr ++ "\nIndustry: " ++ cd.industry ++ "\nBurn Rate: "
              ++ toString cd.burnRate ++ "\nExit Strategy: " ++ cd.exitStrategy ++ "\n"),
           .insertText iT " Investment Details",
           .insertText iB ("Deal Status: " ++ cd.dealStatus ++ "\nFunding Stage: "
              ++ cd.fundingStage ++ "\nInvestment Amount: " ++ toString cd.investmentAmount
              ++ "\nInvestment Date: " ++ cd.investmentDate ++ "\n"),
           .insertText pT "Paragraph",
           .insertText pB cd.keyMetrics] ∧
      tr.filter isBulletsReq
        = [.createParagraphBullets gB, .createParagraphBullets iB] := by
  obtain ⟨t1, t2, t3, t4, p1, p2, p3, hcp, hb1, hb2, hb3, htr⟩ :=
    initiateSlidesInner_ok (initiateSlides_ok h)
  obtain ⟨hcid, hpne, a, b, ht1⟩ := createPresentation_ok hcp
  obtain ⟨gT, gB, ht2⟩ := addNewBulletSlide_ok hb1
  obtain ⟨iT, iB, ht3⟩ := addNewBulletSlide_ok hb2
  obtain ⟨hk, e0, e1, rest, pT, pB, hlay, he0, he1, ht4, hp4⟩ := addNewParagraphSlide_ok hb3
  subst htr ht1 ht2 ht3 ht4
  refine ⟨hcid, ?_, ?_, a, b, gT, gB, iT, iB, pT, pB, ?_, ?_⟩
  · simp [List.filter_append, List.filter, isCreatePresentationReq]
  · simp [List.filter_append, List.filter, isCreateSlideReq, SlideType.kind]
  · simp [List.filter_append, List.filter, isInsertTextReq, SlideType.kind,
      SlideType.bodyText, bulletSummary_generalSummary, bulletSummary_investmentDetails,
      show prettifyKey "GeneralSummary" = " General Summary" from rfl,
      show prettifyKey "InvestmentDetails" = " Investment Details" from rfl]
  · simp [List.filter_append, List.filter, isBulletsReq]

/-- A sample company record (the test data in createPresentation.ts). -/
def cdSample : CompanyData :=
  { companyName := "Hax", location := "Newark NJ", foundedYear := 2011,
    arr := 20000000, industry := "Venture Capital", burnRate := 8000000,
    exitStrategy := "IPO", dealStatus := "Due Diligence", fundingStage := "Series C",
    investmentAmount := 200, investmentDate := "May 10, 2024", keyMetrics := "Cool notes" }

/-- A sample Slides API environment: a created presentation id, a title
slide with two placeholders, and a two-placeholder TITLE_AND_BODY layout
for every created slide. -/
def envSample : SlidesEnv :=
  { createdId := some "pres1",
    initialSlides := [{ objectId := some "slide0",
                        pageElements := some [{ objectId := some "t0" },
                                              { objectId := some "s0" }] }],
    layoutElems := fun oid => [{ objectId := some (oid ++ "_t") }, { objectId := some (oid ++ "_b") }],
    paragraphId := "id_99_7",
    today := "2025-01-01" }

/-- The presentation state `initiateSlides` produces on the sample
inputs. -/
def presSample : Presentation :=
  match (initiateSlides cdSample envSample).1 with
  | .ok (_, p) => p
  | .error _ => { presentationId := "", slides := [] }

/-- The request trace `initiateSlides` produces on the sample inputs. -/
def trSample : List Request := (initiateSlides cdSample envSample).2

theorem initiateSlides_fixed_sequence_witness :
    envSample.createdId = some "pres1" ∧
    trSample.filter isCreatePresentationReq
      = [.createPresentationReq (cdSample.companyName ++ " Slide Deck")] ∧
    trSample.filter isCreateSlideReq
      = [.createSlide "GeneralSummary", .createSlide "InvestmentDetails",
         .createSlide envSample.paragraphId] ∧
    ∃ a b gT gB iT iB pT pB : String,
      trSample.filter isInsertTextReq
        = [.insertText a cdSample.companyName,
           .insertText b (cdSample.location ++ "\nCreated: " ++ envSample.today),
           .insertText gT " General Summary",
           .insertText gB ("Founded Year: " ++ toString cdSample.foundedYear ++ "\nArr: "
              ++ toString cdSample.arr ++ "\nIndustry: " ++ cdSample.industry ++ "\nBurn Rate: "
              ++ toString cdSample.burnRate ++ "\nExit Strategy: " ++ cdSample.exitStrategy ++ "\n"),
           .insertText iT " Investment Details",
           .insertText iB ("Deal Status: " ++ cdSample.dealStatus ++ "\nFunding Stage: "
              ++ cdSample.fundingStage ++ "\nInvestment Amount: " ++ toString cdSample.investmentAmount
              ++ "\nInvestment Date: " ++ cdSample.investmentDate ++ "\n"),
           .insertText pT "Paragraph",
           .insertText pB cdSample.keyMetrics] ∧
      trSample.filter isBulletsReq
        = [.createParagraphBullets gB, .createParagraphBullets iB] :=
  initiateSlides_fixed_sequence cdSample envSample "pres1" presSample trSample (by decide)

/-- C5: every slide append happens against a known presentation
identifier: `addNewBulletSlide` and `addNewParagraphSlide` reject a
missing (or empty, JS-falsy) presentationId with an error before
issuing any API request (empty trace), and in a successful
`initiateSlides` run the returned identifier is the one
`presentations.create` produced, and the whole trace splits into a
first part containing the single presentation creation and no slide
creation, followed by a part with no further presentation creation —
the identifier is captured before any of the three appends is
issued. -/
theorem append_requires_presentationId :
    (∀ (sd : AddSlideParam) (env : SlidesEnv) (p : Presentation),
      strFalsy sd.presentationId = true →
      addNewBulletSlide sd env p =
        (.error "Could not get presentationID in addGeneralSummary(). Check your parameter in function call.", [])) ∧
    (∀ (sd : AddSlideParam) (env : SlidesEnv) (p : Presentation),
      strFalsy sd.presentationId = true →
      addNewParagraphSlide sd env p =
        (.error "Could not get presentationID in addNewParagraphSlide(). Check the parameter in your function call.", [])) ∧
    (∀ (cd : CompanyData) (env : SlidesEnv) (pid : String) (p : Presentation) (tr : List Request),
      initiateSlides cd env = (.ok (pid, p), tr) →
      env.createdId = some pid ∧
      ∃ t0 t1, tr = t0 ++ t1 ∧
        t0.filter isCreateSlideReq = [] ∧
        t0.filter isCreatePresentationReq
          = [.createPresentationReq (cd.companyName ++ " Slide Deck")] ∧
        t1.filter isCreatePresentationReq = []) := by
  refine ⟨?_, ?_, ?_⟩
  · intro sd env p hf
    unfold addNewBulletSlide
    simp [hf]
  · intro sd env p hf
    unfold addNewParagraphSlide
    simp [hf]
  · intro cd env pid p tr h
    obtain ⟨t1, t2, t3, t4, p1, p2, p3, hcp, hb1, hb2, hb3, htr⟩ :=
      initiateSlidesInner_ok (initiateSlides_ok h)
    obtain ⟨hcid, hpne, a, b, ht1⟩ := createPresentation_ok hcp
    obtain ⟨gT, gB, ht2⟩ := addNewBulletSlide_ok hb1
    obtain ⟨iT, iB, ht3⟩ := addNewBulletSlide_ok hb2
    obtain ⟨hk, e0, e1, rest, pT, pB, hlay, he0, he1, ht4, hp4⟩ := addNewParagraphSlide_ok hb3
    subst htr
    refine ⟨hcid, t1, t2 ++ t3 ++ t4, by simp, ?_, ?_, ?_⟩
    · rw [ht1]
      simp [List.filter, isCreateSlideReq]
    · rw [ht1]
      simp [List.filter, isCreatePresentationReq]
    · rw [ht2, ht3, ht4]
      simp [List.filter_append, List.filter, isCreatePresentationReq]

theorem append_requires_presentationId_witness :
    addNewBulletSlide
      { companyName := "X", slideType := .paragraph "b", presentationId := none }
      envSample presSample =
      (.error "Could not get presentationID in addGeneralSummary(). Check your parameter in function call.", []) ∧
    addNewParagraphSlide
      { companyName := "X", slideType := .paragraph "b", presentationId := none }
      envSample presSample =
      (.error "Could not get presentationID in addNewParagraphSlide(). Check the parameter in your function call.", []) ∧
    (envSample.createdId = some "pres1" ∧
      ∃ t0 t1, trSample = t0 ++ t1 ∧
        t0.filter isCreateSlideReq = [] ∧
        t0.filter isCreatePresentationReq
          = [.createPresentationReq (cdSample.companyName ++ " Slide Deck")] ∧
        t1.filter isCreatePresentationReq = []) :=
  ⟨append_requires_presentationId.1 _ envSample presSample rfl,
   append_requires_presentationId.2.1 _ envSample presSample rfl,
   append_requires_presentationId.2.2 cdSample envSample "pres1" presSample trSample (by decide)⟩

/-- C9: whenever `initiateSlides` succeeds with identifier `pid`, the
`create-presentation` tool returns text content containing that
identifier: exactly "Presentation ID: " followed by `pid`. -/
theorem createPresentationTool_returns_id (d : CompanyData) (env : SlidesEnv)
    (pid : String) (p : Presentation) (tr : List Request)
    (h : initiateSlides d env = (.ok (pid, p), tr)) :
    createPresentationTool (some d) env = .text ("Presentation ID: " ++ pid) := by
  simp [createPresentationTool, h]

theorem createPresentationTool_returns_id_witness :
    createPresentationTool (some cdSample) envSample = .text ("Presentation ID: " ++ "pres1") :=
  createPresentationTool_returns_id cdSample envSample "pres1" presSample trSample (by decide)

/-- C3 (amended): the four tool handlers catch every failure arising
inside their try blocks and surface it as text content — the
`fetch-Notion-data`, `extract-company-data` and `add-custom-slide`
handlers never let an exception escape for any input or environment,
and `create-presentation` never does once its `data` argument is
present; but `create-presentation` invoked without `data` throws from
the handler (its validation sits outside the try/catch), so the
original claim fails for that one case. -/
theorem tool_failures_surface_as_text :
    (∀ env : FetchEnv, (fetchNotionTool env).isText = true) ∧
    (∀ (cache : Option (List CsvRow)) (q : String),
      ((extractCompanyDataTool cache q).1).isText = true) ∧
    (∀ (d : CompanyData) (env : SlidesEnv),
      (createPresentationTool (some d) env).isText = true) ∧
    (∀ (t c pid : String) (env : SlidesEnv) (p : Presentation),
      (addCustomSlideTool t c pid env p).isText = true) ∧
    (∀ env : SlidesEnv,
      createPresentationTool none env
        = .thrown "Missing or invalid input data for create-presentation") := by
  refine ⟨?_, ?_, ?_, ?_, fun _ => rfl⟩
  · intro env
    cases hne : env.notionErr with
    | some e => simp [fetchNotionTool, hne, ToolOutcome.isText]
    | none =>
      cases hbr : env.backendRes with
      | error e => simp [fetchNotionTool, hne, hbr, ToolOutcome.isText]
      | ok body =>
        by_cases hb : body.falsy = true
        · simp [fetchNotionTool, hne, hbr, hb, ToolOutcome.isText]
        · simp [fetchNotionTool, hne, hbr, hb, ToolOutcome.isText]
  · intro cache q
    cases cache with
    | none => rfl
    | some rows =>
      cases hf : rows.find? (companyMatches q) with
      | none => simp [extractCompanyDataTool, hf, ToolOutcome.isText]
      | some r => simp [extractCompanyDataTool, hf, ToolOutcome.isText]
  · intro d env
    rcases hres : initiateSlides d env with ⟨r, tr⟩
    cases r with
    | ok v =>
      cases v
      simp [createPresentationTool, hres, ToolOutcome.isText]
    | error e => simp [createPresentationTool, hres, ToolOutcome.isText]
  · intro t c pid env p
    rcases hres : addCustomSlide t c pid env p with ⟨r, tr⟩
    cases r with
    | ok v => simp [addCustomSlideTool, hres, ToolOutcome.isText]
    | error e => simp [addCustomSlideTool, hres, ToolOutcome.isText]

/-- C3 (counterexample): calling the `create-presentation` handler with
a missing `data` argument propagates an exception out of the tool
invocation instead of returning text content. -/
theorem createPresentationTool_missing_data_throws :
    createPresentationTool none envSample
      = .thrown "Missing or invalid input data for create-presentation" ∧
    (createPresentationTool none envSample).isText = false := ⟨rfl, rfl⟩

theorem find?_first {α : Type} {pred : α → Bool} {pre post : List α} {r : α}
    (hpre : ∀ x ∈ pre, pred x = false) (hr : pred r = true) :
    (pre ++ r :: post).find? pred = some r := by
  induction pre with
  | nil => simp [List.find?_cons_of_pos, hr]
  | cons a t ih =>
    rw [List.cons_append, List.find?_cons_of_neg _ (by simp [hpre a (by simp)])]
    exact ih (fun x hx => hpre x (by simp [hx]))

/-- C2 (counterexample): a cached row whose stored company name is the
empty string trim-lowercases to the same string as the empty query, yet
the lookup returns the not-found text instead of that first matching
record — the handler's `row.companyName &&` truthiness guard skips
records with an empty stored name, so the claim as stated fails. -/
theorem extract_lookup_empty_name_counterexample :
    jsToLower (jsTrim (CsvRow.companyName [("companyName", "")]))
      = jsToLower (jsTrim "") ∧
    (extractCompanyDataTool (some [[("companyName", "")]]) "").1
      = .text ("No company found with the name \"\"") := ⟨rfl, rfl⟩

/-- C2 (amended): for every cached table and query, the lookup returns
(as text) the first record with a NONEMPTY stored company name whose
trimmed, lowercased name equals the trimmed, lowercased query; when no
record matches this test, the not-found text is returned.  The match
test is exactly nonemptiness plus normalized equality, and the query
" acme " matches a stored name "Acme". -/
theorem extract_first_match :
    (∀ (pre post : List CsvRow) (r : CsvRow) (q : String),
      (∀ r' ∈ pre, companyMatches q r' = false) →
      companyMatches q r = true →
      (extractCompanyDataTool (some (pre ++ r :: post)) q).1 = .text (rowToText r)) ∧
    (∀ (rows : List CsvRow) (q : String),
      (∀ r ∈ rows, companyMatches q r = false) →
      (extractCompanyDataTool (some rows) q).1
        = .text ("No company found with the name \"" ++ q ++ "\"")) ∧
    (∀ (r : CsvRow) (q : String),
      companyMatches q r
        = (!(CsvRow.companyName r).isEmpty &&
            (jsToLower (jsTrim (CsvRow.companyName r)) == jsToLower (jsTrim q)))) ∧
    companyMatches " acme " [("companyName", "Acme")] = true := by
  refine ⟨?_, ?_, fun r q => rfl, by decide⟩
  · intro pre post r q hpre hr
    simp [extractCompanyDataTool, find?_first hpre hr]
  · intro rows q hall
    have hnone : rows.find? (companyMatches q) = none :=
      List.find?_eq_none.mpr (fun x hx => by simp [hall x hx])
    simp [extractCompanyDataTool, hnone]

theorem extract_first_match_witness :
    (extractCompanyDataTool
        (some [[("companyName", "Globex")], [("companyName", "Acme"), ("arr", "5")]])
        " acme ").1
      = .text (rowToText [("companyName", "Acme"), ("arr", "5")]) ∧
    (extractCompanyDataTool (some [[("companyName", "Globex")]]) "Initech").1
      = .text ("No company found with the name \"Initech\"") :=
  ⟨extract_first_match.1 [[("companyName", "Globex")]] []
      [("companyName", "Acme"), ("arr", "5")] " acme " (by decide) (by decide),
   extract_first_match.2.1 [[("companyName", "Globex")]] "Initech" (by decide)⟩

/-- C7: looking up any company name while the cache file is absent
yields the caught-error text (the ENOENT message behind the not-staged
condition) rather than an escaping exception, and the
`extract-company-data` handler's only external effect — with or without
a cache — is reading the cache: it never fetches from the Notion
database. -/
theorem extract_absent_cache :
    (∀ q : String, (extractCompanyDataTool none q).1
      = .text ("An error occurred while extracting company data:\n" ++ enoentMessage)) ∧
    (∀ (cache : Option (List CsvRow)) (q : String),
      (extractCompanyDataTool cache q).2 = [.readCache]) ∧
    (∀ (cache : Option (List CsvRow)) (q : String),
      Effect.notionFetch ∉ (extractCompanyDataTool cache q).2) := by
  refine ⟨fun q => rfl, ?_, ?_⟩
  · intro cache q
    cases cache with
    | none => rfl
    | some rows =>
      cases hf : rows.find? (companyMatches q) with
      | none => simp [extractCompanyDataTool, hf]
      | some r => simp [extractCompanyDataTool, hf]
  · intro cache q
    cases cache with
    | none => simp [extractCompanyDataTool]
    | some rows =>
      cases hf : rows.find? (companyMatches q) with
      | none => simp [extractCompanyDataTool, hf]
      | some r => simp [extractCompanyDataTool, hf]

/-- C10: `connectToServer` on a script path ending in neither ".js" nor
".py" fails with the fixed error after only constructing the SDK client
— no transport is constructed and no server process launched; a path
with either suffix proceeds through transport construction to the
connect step. -/
theorem connectToServer_suffix_check :
    (∀ (path platform execPath : String),
      jsEndsWith path ".js" = false → jsEndsWith path ".py" = false →
      connectToServer path platform execPath
        = (.error "Server script must be a .js or .py file", [.clientNew])) ∧
    (∀ (path platform execPath : String),
      jsEndsWith path ".js" = true ∨ jsEndsWith path ".py" = true →
      ∃ cmd, connectToServer path platform execPath
        = (.ok (), [.clientNew, .transportNew cmd path, .clientConnect])) := by
  constructor
  · intro path platform execPath h1 h2
    simp [connectToServer, h1, h2]
  · intro path platform execPath h
    rcases h with h | h
    · cases h2 : jsEndsWith path ".py" with
      | false => exact ⟨execPath, by simp [connectToServer, h, h2]⟩
      | true =>
        refine ⟨if platform == "win32" then "python" else "python3", ?_⟩
        simp [connectToServer, h, h2]
    · refine ⟨if platform == "win32" then "python" else "python3", ?_⟩
      cases h1 : jsEndsWith path ".js" with
      | false => simp [connectToServer, h, h1]
      | true => simp [connectToServer, h, h1]

theorem connectToServer_suffix_check_witness :
    connectToServer "server.txt" "linux" "/usr/bin/node"
      = (.error "Server script must be a .js or .py file", [.clientNew]) ∧
    ∃ cmd, connectToServer "server.js" "linux" "/usr/bin/node"
      = (.ok (), [.clientNew, .transportNew cmd "server.js", .clientConnect]) :=
  ⟨connectToServer_suffix_check.1 "server.txt" "linux" "/usr/bin/node" (by decide) (by decide),
   connectToServer_suffix_check.2 "server.js" "linux" "/usr/bin/node" (Or.inl (by decide))⟩

theorem isEmpty_false_of_ne {s : String} (h : s ≠ "") : s.isEmpty = false := by
  cases hemp : s.isEmpty
  · rfl
  · exact absurd ((String.isEmpty_iff s).mp hemp) h

/-- A TITLE_AND_BODY layout result that does NOT yield both expected
placeholder shapes: fewer than two page elements, or a missing/empty
objectId on one of the first two. -/
def lacksPlaceholders (elems : List PageElement) : Bool :=
  match elems with
  | [] => true
  | [_] => true
  | e0 :: e1 :: _ => strFalsy e0.objectId || strFalsy e1.objectId

/-- C6: placeholder object identifiers are resolved purely by position
— first page element is the title, second the body — and the append
fails (throws) whenever the created slide does not yield both expected
placeholder shapes, including fewer than two page elements; when it does
yield them, the text/style requests target exactly those two positional
identifiers.  Stated for both `addNewBulletSlide` (the created slide is
found by its objectId; the freshness hypothesis says no pre-existing
slide shadows it) and `addNewParagraphSlide` (the created slide is the
last one). -/
theorem placeholders_positional :
    (∀ (sd : AddSlideParam) (env : SlidesEnv) (p : Presentation),
      strFalsy sd.presentationId = false →
      (∀ s ∈ p.slides, s.objectId ≠ some sd.slideType.kind) →
      (lacksPlaceholders (env.layoutElems sd.slideType.kind) = true →
        ∃ e, addNewBulletSlide sd env p
          = (.error e, [.createSlide sd.slideType.kind, .getPresentation])) ∧
      (∀ (e0 e1 : PageElement) (rest : List PageElement) (tId bId : String),
        env.layoutElems sd.slideType.kind = e0 :: e1 :: rest →
        e0.objectId = some tId → tId ≠ "" →
        e1.objectId = some bId → bId ≠ "" →
        (addNewBulletSlide sd env p).2
          = [.createSlide sd.slideType.kind, .getPresentation,
             .insertText tId (prettifyKey sd.slideType.kind), .updateTextStyle tId,
             .insertText bId (bulletSummary sd.slideType), .createParagraphBullets bId])) ∧
    (∀ (sd : AddSlideParam) (env : SlidesEnv) (p : Presentation),
      strFalsy sd.presentationId = false →
      sd.slideType.kind = "Paragraph" →
      (lacksPlaceholders (env.layoutElems env.paragraphId) = true →
        ∃ e, addNewParagraphSlide sd env p
          = (.error e, [.createSlide env.paragraphId, .getPresentation])) ∧
      (∀ (e0 e1 : PageElement) (rest : List PageElement) (tId bId : String),
        env.layoutElems env.paragraphId = e0 :: e1 :: rest →
        e0.objectId = some tId → tId ≠ "" →
        e1.objectId = some bId → bId ≠ "" →
        (addNewParagraphSlide sd env p).2
          = [.createSlide env.paragraphId, .getPresentation,
             .insertText tId "Paragraph", .updateTextStyle tId,
             .insertText bId sd.slideType.bodyText])) := by
  constructor
  · intro sd env p hpres hfresh
    have hfind : ((applyRequest env p (.createSlide sd.slideType.kind)).slides).find?
        (fun s => s.objectId == some sd.slideType.kind)
        = some { objectId := some sd.slideType.kind,
                 pageElements := some (env.layoutElems sd.slideType.kind) } := by
      simp only [applyRequest]
      refine find?_first (fun x hx => ?_) (by simp)
      simp [hfresh x hx]
    constructor
    · intro hbad
      cases hlay : env.layoutElems sd.slideType.kind with
      | nil =>
        exact ⟨"\x27General Summary\x27 slide not found.",
          by simp [addNewBulletSlide, hpres, hfind, hlay]⟩
      | cons e0 t =>
        cases t with
        | nil =>
          exact ⟨"TypeError: Cannot read properties of undefined",
            by simp [addNewBulletSlide, hpres, hfind, hlay]⟩
        | cons e1 rest =>
          have hor : (strFalsy e1.objectId || strFalsy e0.objectId) = true := by
            rw [hlay] at hbad
            simp only [lacksPlaceholders] at hbad
            rw [Bool.or_comm]
            exact hbad
          exact ⟨"titleID or subtitleId not set",
            by simp [addNewBulletSlide, hpres, hfind, hlay, hor]⟩
    · intro e0 e1 rest tId bId hlay he0 ht he1 hb
      have h0 : strFalsy (some tId) = false := isEmpty_false_of_ne ht
      have h1 : strFalsy (some bId) = false := isEmpty_false_of_ne hb
      simp [addNewBulletSlide, hpres, hfind, hlay, he0, he1, h0, h1]
  · intro sd env p hpres hkind
    have hlast : ((applyRequest env p (.createSlide env.paragraphId)).slides).getLast?
        = some { objectId := some env.paragraphId,
                 pageElements := some (env.layoutElems env.paragraphId) } := by
      simp [applyRequest]
    constructor
    · intro hbad
      cases hlay : env.layoutElems env.paragraphId with
      | nil =>
        exact ⟨"Latest slide not found or has no elements",
          by simp [addNewParagraphSlide, hpres, hkind, hlast, hlay]⟩
      | cons e0 t =>
        cases t with
        | nil =>
          exact ⟨"TypeError: Cannot read properties of undefined",
            by simp [addNewParagraphSlide, hpres, hkind, hlast, hlay]⟩
        | cons e1 rest =>
          have hor : (strFalsy e1.objectId || strFalsy e0.objectId) = true := by
            rw [hlay] at hbad
            simp only [lacksPlaceholders] at hbad
            rw [Bool.or_comm]
            exact hbad
          exact ⟨"titleID or subtitleId not set",
            by simp [addNewParagraphSlide, hpres, hkind, hlast, hlay, hor]⟩
    · intro e0 e1 rest tId bId hlay he0 ht he1 hb
      have h0 : strFalsy (some tId) = false := isEmpty_false_of_ne ht
      have h1 : strFalsy (some bId) = false := isEmpty_false_of_ne hb
      simp [addNewParagraphSlide, hpres, hkind, hlast, hlay, he0, he1, h0, h1]

/-- A Slides environment whose TITLE_AND_BODY layout yields only ONE
page element — the malformed-layout case. -/
def envOneElem : SlidesEnv :=
  { createdId := some "pres1",
    initialSlides := [],
    layoutElems := fun oid => [{ objectId := some (oid ++ "_t") }],
    paragraphId := "id_99_7",
    today := "2025-01-01" }

theorem placeholders_positional_witness :
    (∃ e, addNewBulletSlide
        { companyName := "X",
          slideType := .generalSummary 1 2 "I" 3 "E", presentationId := some "pres1" }
        envOneElem { presentationId := "pres1", slides := [] }
      = (.error e, [.createSlide "GeneralSummary", .getPresentation])) ∧
    (addNewBulletSlide
        { companyName := "X",
          slideType := .generalSummary 1 2 "I" 3 "E", presentationId := some "pres1" }
        envSample { presentationId := "pres1", slides := [] }).2
      = [.createSlide "GeneralSummary", .getPresentation,
         .insertText "GeneralSummary_t" (prettifyKey "GeneralSummary"),
         .updateTextStyle "GeneralSummary_t",
         .insertText "GeneralSummary_b" (bulletSummary (.generalSummary 1 2 "I" 3 "E")),
         .createParagraphBullets "GeneralSummary_b"] ∧
    (∃ e, addNewParagraphSlide
        { companyName := "X", slideType := .paragraph "B", presentationId := some "pres1" }
        envOneElem { presentationId := "pres1", slides := [] }
      = (.error e, [.createSlide "id_99_7", .getPresentation])) :=
  ⟨((placeholders_positional.1
      { companyName := "X", slideType := .generalSummary 1 2 "I" 3 "E",
        presentationId := some "pres1" }
      envOneElem { presentationId := "pres1", slides := [] } rfl (by simp)).1 rfl),
   ((placeholders_positional.1
      { companyName := "X", slideType := .generalSummary 1 2 "I" 3 "E",
        presentationId := some "pres1" }
      envSample { presentationId := "pres1", slides := [] } rfl (by simp)).2
      { objectId := some "GeneralSummary_t" } { objectId := some "GeneralSummary_b" } []
      "GeneralSummary_t" "GeneralSummary_b" rfl rfl (by decide) rfl (by decide)),
   ((placeholders_positional.2
      { companyName := "X", slideType := .paragraph "B", presentationId := some "pres1" }
      envOneElem { presentationId := "pres1", slides := [] } rfl rfl).1 rfl)⟩

theorem addCustomSlide_ok {title content pid : String} {env : SlidesEnv}
    {p p' : Presentation} {tr : List Request}
    (h : addCustomSlide title content pid env p = (.ok p', tr)) :
    addNewParagraphSlide
      { companyName := title, slideType := .paragraph content,
        presentationId := some pid } env p = (.ok p', tr) := by
  unfold addCustomSlide at h
  simp only [] at h
  split at h
  · rename_i p1 tr' heq
    simp only [Prod.mk.injEq, Except.ok.injEq] at h
    obtain ⟨h1, h2⟩ := h
    rw [h1, h2] at heq
    exact heq
  · simp at h

/-- C8: a successful `addCustomSlide` call appends exactly one new
slide at the end of the presentation and leaves all prior slides
unchanged, provided the layout-generated element ids of the new slide
are fresh (the Slides API guarantees fresh object ids); moreover every
`insertText` and `updateTextStyle` request in its trace targets a page
element of the newly created slide. -/
theorem addCustomSlide_appends_one_slide (title content pid : String)
    (env : SlidesEnv) (p p' : Presentation) (tr : List Request)
    (h : addCustomSlide title content pid env p = (.ok p', tr))
    (hfresh : ∀ oid ∈ slideElementIds
        { objectId := some env.paragraphId,
          pageElements := some (env.layoutElems env.paragraphId) },
      ∀ s ∈ p.slides, oid ∉ slideElementIds s) :
    ∃ s' : Slide, p'.slides = p.slides ++ [s'] ∧ s'.objectId = some env.paragraphId ∧
      (∀ oid txt, Request.insertText oid txt ∈ tr →
        oid ∈ slideElementIds
          { objectId := some env.paragraphId,
            pageElements := some (env.layoutElems env.paragraphId) }) ∧
      (∀ oid, Request.updateTextStyle oid ∈ tr →
        oid ∈ slideElementIds
          { objectId := some env.paragraphId,
            pageElements := some (env.layoutElems env.paragraphId) }) := by
  obtain ⟨hk, e0, e1, rest, tId, bId, hlay, he0, he1, htr, hp⟩ :=
    addNewParagraphSlide_ok (addCustomSlide_ok h)
  have htmem : tId ∈ slideElementIds
      { objectId := some env.paragraphId,
        pageElements := some (env.layoutElems env.paragraphId) } := by
    simp [slideElementIds, hlay, List.mem_filterMap]
    exact Or.inl he0
  have hbmem : bId ∈ slideElementIds
      { objectId := some env.paragraphId,
        pageElements := some (env.layoutElems env.paragraphId) } := by
    simp [slideElementIds, hlay, List.mem_filterMap]
    exact Or.inr (Or.inl he1)
  obtain ⟨s', hs', hoid⟩ :=
    applyRequests_para_frame env p env.paragraphId tId bId "Paragraph"
      (AddSlideParam.mk title (.paragraph content) (some pid)).slideType.bodyText
      (fun s hs => hfresh tId htmem s hs) (fun s hs => hfresh bId hbmem s hs)
  refine ⟨s', ?_, hoid, ?_, ?_⟩
  · rw [hp]
    exact hs'
  · intro oid txt hmem
    rw [htr] at hmem
    simp only [List.mem_cons, List.mem_singleton] at hmem
    rcases hmem with h' | h' | h' | h' | h' | h'
    all_goals first
      | (cases h'; assumption)
      | cases h'
  · intro oid hmem
    rw [htr] at hmem
    simp only [List.mem_cons, List.mem_singleton] at hmem
    rcases hmem with h' | h' | h' | h' | h' | h'
    all_goals first
      | (cases h'; assumption)
      | cases h'

/-- A presentation holding one prior slide, for the frame witness. -/
def pBase : Presentation :=
  { presentationId := "pres1",
    slides := [{ objectId := some "slide0",
                 pageElements := some [{ objectId := some "t0" },
                                       { objectId := some "s0" }] }] }

/-- The result of a sample `addCustomSlide` call on `pBase`. -/
def customOut : Except String Presentation × List Request :=
  addCustomSlide "Custom Title" "Custom body" "pres1" envSample pBase

/-- The presentation state after the sample `addCustomSlide` call. -/
def pCustom : Presentation :=
  match customOut.1 with
  | .ok p => p
  | .error _ => { presentationId := "", slides := [] }

/-- The request trace of the sample `addCustomSlide` call. -/
def trCustom : List Request := customOut.2

theorem addCustomSlide_appends_one_slide_witness :
    ∃ s' : Slide, pCustom.slides = pBase.slides ++ [s'] ∧
      s'.objectId = some envSample.paragraphId ∧
      (∀ oid txt, Request.insertText oid txt ∈ trCustom →
        oid ∈ slideElementIds
          { objectId := some envSample.paragraphId,
            pageElements := some (envSample.layoutElems envSample.paragraphId) }) ∧
      (∀ oid, Request.updateTextStyle oid ∈ trCustom →
        oid ∈ slideElementIds
          { objectId := some envSample.paragraphId,
            pageElements := some (envSample.layoutElems envSample.paragraphId) }) :=
  addCustomSlide_appends_one_slide "Custom Title" "Custom body" "pres1"
    envSample pBase pCustom trCustom (by decide) (by decide)

theorem getTitle_mkProp (s : String) (n : Int) :
    getTitle (some (mkProp .title s n)) = .str s := rfl

theorem getRichText_mkProp (s : String) (n : Int) :
    getRichText (some (mkProp .richText s n)) = .str s := rfl

theorem getSelect_mkProp (s : String) (n : Int) :
    getSelect (some (mkProp .selectKind s n)) = .str s := rfl

theorem getNumber_mkProp (s : String) (n : Int) :
    getNumber (some (mkProp .numberKind s n)) = .num n := rfl

theorem getDate_mkProp (s : String) (n : Int) :
    getDate (some (mkProp .dateKind s n)) = .str s := rfl

theorem getTitle_mkProp_ne {t : PropType} (s : String) (n : Int)
    (h : t ≠ .title) : getTitle (some (mkProp t s n)) = .str "" := by
  cases t
  · exact absurd rfl h
  all_goals rfl

theorem getRichText_mkProp_ne {t : PropType} (s : String) (n : Int)
    (h : t ≠ .richText) : getRichText (some (mkProp t s n)) = .str "" := by
  cases t
  case richText => exact absurd rfl h
  all_goals rfl

theorem getSelect_mkProp_ne {t : PropType} (s : String) (n : Int)
    (h : t ≠ .selectKind) : getSelect (some (mkProp t s n)) = .str "" := by
  cases t
  case selectKind => exact absurd rfl h
  all_goals rfl

theorem getNumber_mkProp_ne {t : PropType} (s : String) (n : Int)
    (h : t ≠ .numberKind) : getNumber (some (mkProp t s n)) = .num 0 := by
  cases t
  case numberKind => exact absurd rfl h
  all_goals rfl

theorem getDate_mkProp_ne {t : PropType} (s : String) (n : Int)
    (h : t ≠ .dateKind) : getDate (some (mkProp t s n)) = .str "" := by
  cases t
  case dateKind => exact absurd rfl h
  all_goals rfl

/-- C4: the Formatter `parseNotionPage` maps the twelve Notion
properties onto the twelve record fields: with all fields present and
well-formed it reproduces every payload (title → companyName, rich
text → location/keyMetrics, number → foundedYear/arr/burnRate/
investmentAmount, select → industry/exitStrategy/dealStatus/
fundingStage, date → investmentDate); a missing property yields the
documented default (empty string for text/select/title/date fields,
zero for numeric fields), and so does a property holding a well-formed
Notion value of any other type. -/
theorem parseNotionPage_fields :
    (∀ (page props : Json) (c l : String) (fy a : Int) (i : String) (br : Int)
       (es ds fs : String) (ia : Int) (idt km : String),
      page.get? "properties" = some props →
      props.get? "Company Name" = some (mkProp .title c 0) →
      props.get? "Location" = some (mkProp .richText l 0) →
      props.get? "Founded Year" = some (mkProp .numberKind "" fy) →
      props.get? "ARR" = some (mkProp .numberKind "" a) →
      props.get? "Industry" = some (mkProp .selectKind i 0) →
      props.get? "Burn Rate" = some (mkProp .numberKind "" br) →
      props.get? "Exit Strategy" = some (mkProp .selectKind es 0) →
      props.get? "Deal Status" = some (mkProp .selectKind ds 0) →
      props.get? "Funding Stage" = some (mkProp .selectKind fs 0) →
      props.get? "Investment Amount" = some (mkProp .numberKind "" ia) →
      props.get? "Investment Date" = some (mkProp .dateKind idt 0) →
      props.get? "Key Metrics" = some (mkProp .richText km 0) →
      parseNotionPage page = .ok
        { companyName := .str c, location := .str l, foundedYear := .num fy,
          arr := .num a, industry := .str i, burnRate := .num br,
          exitStrategy := .str es, dealStatus := .str ds, fundingStage := .str fs,
          investmentAmount := .num ia, investmentDate := .str idt,
          keyMetrics := .str km }) ∧
    (∀ (page props : Json) (rec : ParsedRecord),
      page.get? "properties" = some props →
      parseNotionPage page = .ok rec →
      ((props.get? "Company Name" = none → rec.companyName = .str "") ∧
       (props.get? "Location" = none → rec.location = .str "") ∧
       (props.get? "Founded Year" = none → rec.foundedYear = .num 0) ∧
       (props.get? "ARR" = none → rec.arr = .num 0) ∧
       (props.get? "Industry" = none → rec.industry = .str "") ∧
       (props.get? "Burn Rate" = none → rec.burnRate = .num 0) ∧
       (props.get? "Exit Strategy" = none → rec.exitStrategy = .str "") ∧
       (props.get? "Deal Status" = none → rec.dealStatus = .str "") ∧
       (props.get? "Funding Stage" = none → rec.fundingStage = .str "") ∧
       (props.get? "Investment Amount" = none → rec.investmentAmount = .num 0) ∧
       (props.get? "Investment Date" = none → rec.investmentDate = .str "") ∧
       (props.get? "Key Metrics" = none → rec.keyMetrics = .str ""))) ∧
    (∀ (page props : Json) (rec : ParsedRecord),
      page.get? "properties" = some props →
      parseNotionPage page = .ok rec →
      ((∀ (t : PropType) (s : String) (n : Int), t ≠ .title →
          props.get? "Company Name" = some (mkProp t s n) → rec.companyName = .str "") ∧
       (∀ (t : PropType) (s : String) (n : Int), t ≠ .richText →
          props.get? "Location" = some (mkProp t s n) → rec.location = .str "") ∧
       (∀ (t : PropType) (s : String) (n : Int), t ≠ .numberKind →
          props.get? "Founded Year" = some (mkProp t s n) → rec.foundedYear = .num 0) ∧
       (∀ (t : PropType) (s : String) (n : Int), t ≠ .numberKind →
          props.get? "ARR" = some (mkProp t s n) → rec.arr = .num 0) ∧
       (∀ (t : PropType) (s : String) (n : Int), t ≠ .selectKind →
          props.get? "Industry" = some (mkProp t s n) → rec.industry = .str "") ∧
       (∀ (t : PropType) (s : String) (n : Int), t ≠ .numberKind →
          props.get? "Burn Rate" = some (mkProp t s n) → rec.burnRate = .num 0) ∧
       (∀ (t : PropType) (s : String) (n : Int), t ≠ .selectKind →
          props.get? "Exit Strategy" = some (mkProp t s n) → rec.exitStrategy = .str "") ∧
       (∀ (t : PropType) (s : String) (n : Int), t ≠ .selectKind →
          props.get? "Deal Status" = some (mkProp t s n) → rec.dealStatus = .str "") ∧
       (∀ (t : PropType) (s : String) (n : Int), t ≠ .selectKind →
          props.get? "Funding Stage" = some (mkProp t s n) → rec.fundingStage = .str "") ∧
       (∀ (t : PropType) (s : String) (n : Int), t ≠ .numberKind →
          props.get? "Investment Amount" = some (mkProp t s n) → rec.investmentAmount = .num 0) ∧
       (∀ (t : PropType) (s : String) (n : Int), t ≠ .dateKind →
          props.get? "Investment Date" = some (mkProp t s n) → rec.investmentDate = .str "") ∧
       (∀ (t : PropType) (s : String) (n : Int), t ≠ .richText →
          props.get? "Key Metrics" = some (mkProp t s n) → rec.keyMetrics = .str ""))) := by
  refine ⟨?_, ?_, ?_⟩
  · intro page props c l fy a i br es ds fs ia idt km hpage
      h1 h2 h3 h4 h5 h6 h7 h8 h9 h10 h11 h12
    have hnn : props.isNull = false := by
      cases props <;> simp_all [Json.get?, Json.isNull]
    unfold parseNotionPage
    rw [hpage]
    simp [hnn, h1, h2, h3, h4, h5, h6, h7, h8, h9, h10, h11, h12,
      getTitle_mkProp, getRichText_mkProp, getSelect_mkProp, getNumber_mkProp,
      getDate_mkProp]
  · intro page props rec hpage hok
    unfold parseNotionPage at hok
    rw [hpage] at hok
    simp only [] at hok
    by_cases hnn : props.isNull = true
    · rw [if_pos hnn] at hok
      cases hok
    · rw [if_neg hnn] at hok
      simp only [Except.ok.injEq] at hok
      subst hok
      refine ⟨?_, ?_, ?_, ?_, ?_, ?_, ?_, ?_, ?_, ?_, ?_, ?_⟩
      all_goals intro hkey
      all_goals simp [hkey, getTitle, getRichText, getSelect, getNumber, getDate]
  · intro page props rec hpage hok
    unfold parseNotionPage at hok
    rw [hpage] at hok
    simp only [] at hok
    by_cases hnn : props.isNull = true
    · rw [if_pos hnn] at hok
      cases hok
    · rw [if_neg hnn] at hok
      simp only [Except.ok.injEq] at hok
      subst hok
      refine ⟨?_, ?_, ?_, ?_, ?_, ?_, ?_, ?_, ?_, ?_, ?_, ?_⟩
      all_goals intro t s n ht hkey
      · simp [hkey, getTitle_mkProp_ne s n ht]
      · simp [hkey, getRichText_mkProp_ne s n ht]
      · simp [hkey, getNumber_mkProp_ne s n ht]
      · simp [hkey, getNumber_mkProp_ne s n ht]
      · simp [hkey, getSelect_mkProp_ne s n ht]
      · simp [hkey, getNumber_mkProp_ne s n ht]
      · simp [hkey, getSelect_mkProp_ne s n ht]
      · simp [hkey, getSelect_mkProp_ne s n ht]
      · simp [hkey, getSelect_mkProp_ne s n ht]
      · simp [hkey, getNumber_mkProp_ne s n ht]
      · simp [hkey, getDate_mkProp_ne s n ht]
      · simp [hkey, getRichText_mkProp_ne s n ht]

/-- A raw database page with all twelve properties present and
well-formed. -/
def pageFull : Json :=
  .obj [("properties", .obj
    [("Company Name", mkProp .title "Acme" 0),
     ("Location", mkProp .richText "NJ" 0),
     ("Founded Year", mkProp .numberKind "" 2011),
     ("ARR", mkProp .numberKind "" 5),
     ("Industry", mkProp .selectKind "Tech" 0),
     ("Burn Rate", mkProp .numberKind "" 7),
     ("Exit Strategy", mkProp .selectKind "IPO" 0),
     ("Deal Status", mkProp .selectKind "DD" 0),
     ("Funding Stage", mkProp .selectKind "C" 0),
     ("Investment Amount", mkProp .numberKind "" 9),
     ("Investment Date", mkProp .dateKind "2024" 0),
     ("Key Metrics", mkProp .richText "notes" 0)])]

/-- A raw database page where Location holds a (wrongly-typed) number
property and every other property is missing. -/
def pageOdd : Json :=
  .obj [("properties", .obj [("Location", mkProp .numberKind "" 5)])]

/-- The record `parseNotionPage` produces on `pageOdd`. -/
def recOdd : ParsedRecord :=
  match parseNotionPage pageOdd with
  | .ok r => r
  | .error _ =>
    { companyName := .null, location := .null, foundedYear := .null, arr := .null,
      industry := .null, burnRate := .null, exitStrategy := .null, dealStatus := .null,
      fundingStage := .null, investmentAmount := .null, investmentDate := .null,
      keyMetrics := .null }

theorem parseNotionPage_fields_witness :
    parseNotionPage pageFull = .ok
      { companyName := .str "Acme", location := .str "NJ", foundedYear := .num 2011,
        arr := .num 5, industry := .str "Tech", burnRate := .num 7,
        exitStrategy := .str "IPO", dealStatus := .str "DD", fundingStage := .str "C",
        investmentAmount := .num 9, investmentDate := .str "2024",
        keyMetrics := .str "notes" } ∧
    recOdd.location = .str "" ∧
    recOdd.companyName = .str "" :=
  ⟨parseNotionPage_fields.1 pageFull
      (.obj [("Company Name", mkProp .title "Acme" 0),
             ("Location", mkProp .richText "NJ" 0),
             ("Founded Year", mkProp .numberKind "" 2011),
             ("ARR", mkProp .numberKind "" 5),
             ("Industry", mkProp .selectKind "Tech" 0),
             ("Burn Rate", mkProp .numberKind "" 7),
             ("Exit Strategy", mkProp .selectKind "IPO" 0),
             ("Deal Status", mkProp .selectKind "DD" 0),
             ("Funding Stage", mkProp .selectKind "C" 0),
             ("Investment Amount", mkProp .numberKind "" 9),
             ("Investment Date", mkProp .dateKind "2024" 0),
             ("Key Metrics", mkProp .richText "notes" 0)])
      "Acme" "NJ" 2011 5 "Tech" 7 "IPO" "DD" "C" 9 "2024" "notes"
      rfl rfl rfl rfl rfl rfl rfl rfl rfl rfl rfl rfl rfl,
   ((parseNotionPage_fields.2.2 pageOdd (.obj [("Location", mkProp .numberKind "" 5)])
      recOdd rfl rfl).2.1 .numberKind "" 5 (by decide) rfl),
   ((parseNotionPage_fields.2.1 pageOdd (.obj [("Location", mkProp .numberKind "" 5)])
      recOdd rfl rfl).1 rfl)⟩

end NotionSlides
